import Mathlib

/-
Verification of samcli/lib/providers/sam_serverless_application_provider.py
(class SamServerlessApplicationProvider) as a shallow embedding.

Modelling conventions:
- Python values occurring in templates are embedded as the inductive `Value`
  (None, bool, int, str, dict as an insertion-ordered association list, list).
- Python `dict.get` is `dictGetD` / `dictGet`; in-place `d[k] = v` is `dictSet`
  (overwrites the first occurrence in place, appends when the key is absent),
  matching CPython dict semantics for unique keys.
- Raised exceptions are the `Except PyError` monad; a generator is embedded as
  the materialized sequence of its yields, or the error its body raises.
- Mutation of the input (the metadata merge writes into a resource's own
  Properties dict) is embedded by explicit state passing: the extraction
  returns the post-state of the resource mapping next to its result.
-/

namespace Samcli

/-- Python template values: None, booleans, integers, strings, dicts
(insertion-ordered association lists) and lists. -/
inductive Value where
  | none
  | bool (b : Bool)
  | int (n : Int)
  | str (s : String)
  | dict (entries : List (String × Value))
  | list (items : List Value)

mutual

/-- Decidable equality on values (written out because the nested inductive
cannot use the derive handler). -/
def Value.decEq : (a b : Value) → Decidable (a = b)
  | Value.none, Value.none => Decidable.isTrue rfl
  | Value.none, Value.bool _ => Decidable.isFalse (fun h => Value.noConfusion h)
  | Value.none, Value.int _ => Decidable.isFalse (fun h => Value.noConfusion h)
  | Value.none, Value.str _ => Decidable.isFalse (fun h => Value.noConfusion h)
  | Value.none, Value.dict _ => Decidable.isFalse (fun h => Value.noConfusion h)
  | Value.none, Value.list _ => Decidable.isFalse (fun h => Value.noConfusion h)
  | Value.bool _, Value.none => Decidable.isFalse (fun h => Value.noConfusion h)
  | Value.bool a, Value.bool b =>
    match Bool.decEq a b with
    | Decidable.isTrue h => Decidable.isTrue (by rw [h])
    | Decidable.isFalse h => Decidable.isFalse (fun hh => h (by injection hh))
  | Value.bool _, Value.int _ => Decidable.isFalse (fun h => Value.noConfusion h)
  | Value.bool _, Value.str _ => Decidable.isFalse (fun h => Value.noConfusion h)
  | Value.bool _, Value.dict _ => Decidable.isFalse (fun h => Value.noConfusion h)
  | Value.bool _, Value.list _ => Decidable.isFalse (fun h => Value.noConfusion h)
  | Value.int _, Value.none => Decidable.isFalse (fun h => Value.noConfusion h)
  | Value.int _, Value.bool _ => Decidable.isFalse (fun h => Value.noConfusion h)
  | Value.int a, Value.int b =>
    match Int.decEq a b with
    | Decidable.isTrue h => Decidable.isTrue (by rw [h])
    | Decidable.isFalse h => Decidable.isFalse (fun hh => h (by injection hh))
  | Value.int _, Value.str _ => Decidable.isFalse (fun h => Value.noConfusion h)
  | Value.int _, Value.dict _ => Decidable.isFalse (fun h => Value.noConfusion h)
  | Value.int _, Value.list _ => Decidable.isFalse (fun h => Value.noConfusion h)
  | Value.str _, Value.none => Decidable.isFalse (fun h => Value.noConfusion h)
  | Value.str _, Value.bool _ => Decidable.isFalse (fun h => Value.noConfusion h)
  | Value.str _, Value.int _ => Decidable.isFalse (fun h => Value.noConfusion h)
  | Value.str a, Value.str b =>
    match String.decEq a b with
    | Decidable.isTrue h => Decidable.isTrue (by rw [h])
    | Decidable.isFalse h => Decidable.isFalse (fun hh => h (by injection hh))
  | Value.str _, Value.dict _ => Decidable.isFalse (fun h => Value.noConfusion h)
  | Value.str _, Value.list _ => Decidable.isFalse (fun h => Value.noConfusion h)
  | Value.dict _, Value.none => Decidable.isFalse (fun h => Value.noConfusion h)
  | Value.dict _, Value.bool _ => Decidable.isFalse (fun h => Value.noConfusion h)
  | Value.dict _, Value.int _ => Decidable.isFalse (fun h => Value.noConfusion h)
  | Value.dict _, Value.str _ => Decidable.isFalse (fun h => Value.noConfusion h)
  | Value.dict a, Value.dict b =>
    match Value.decEqEntries a b with
    | Decidable.isTrue h => Decidable.isTrue (by rw [h])
    | Decidable.isFalse h => Decidable.isFalse (fun hh => h (by injection hh))
  | Value.dict _, Value.list _ => Decidable.isFalse (fun h => Value.noConfusion h)
  | Value.list _, Value.none => Decidable.isFalse (fun h => Value.noConfusion h)
  | Value.list _, Value.bool _ => Decidable.isFalse (fun h => Value.noConfusion h)
  | Value.list _, Value.int _ => Decidable.isFalse (fun h => Value.noConfusion h)
  | Value.list _, Value.str _ => Decidable.isFalse (fun h => Value.noConfusion h)
  | Value.list _, Value.dict _ => Decidable.isFalse (fun h => Value.noConfusion h)
  | Value.list a, Value.list b =>
    match Value.decEqValues a b with
    | Decidable.isTrue h => Decidable.isTrue (by rw [h])
    | Decidable.isFalse h => Decidable.isFalse (fun hh => h (by injection hh))

/-- Decidable equality on dict entry lists. -/
def Value.decEqEntries : (a b : List (String × Value)) → Decidable (a = b)
  | [], [] => Decidable.isTrue rfl
  | [], _ :: _ => Decidable.isFalse (fun h => List.noConfusion h)
  | _ :: _, [] => Decidable.isFalse (fun h => List.noConfusion h)
  | (k, v) :: rest, (k', v') :: rest' =>
    match String.decEq k k', Value.decEq v v', Value.decEqEntries rest rest' with
    | Decidable.isTrue h1, Decidable.isTrue h2, Decidable.isTrue h3 =>
      Decidable.isTrue (by rw [h1, h2, h3])
    | Decidable.isFalse h1, _, _ =>
      Decidable.isFalse (fun hh => by injection hh with hp _; exact h1 (congrArg Prod.fst hp))
    | _, Decidable.isFalse h2, _ =>
      Decidable.isFalse (fun hh => by injection hh with hp _; exact h2 (congrArg Prod.snd hp))
    | _, _, Decidable.isFalse h3 =>
      Decidable.isFalse (fun hh => by injection hh with _ ht; exact h3 ht)

/-- Decidable equality on value lists. -/
def Value.decEqValues : (a b : List Value) → Decidable (a = b)
  | [], [] => Decidable.isTrue rfl
  | [], _ :: _ => Decidable.isFalse (fun h => List.noConfusion h)
  | _ :: _, [] => Decidable.isFalse (fun h => List.noConfusion h)
  | x :: xs, y :: ys =>
    match Value.decEq x y, Value.decEqValues xs ys with
    | Decidable.isTrue h1, Decidable.isTrue h2 => Decidable.isTrue (by rw [h1, h2])
    | Decidable.isFalse h1, _ =>
      Decidable.isFalse (fun hh => by injection hh with hh1 _; exact h1 hh1)
    | _, Decidable.isFalse h2 =>
      Decidable.isFalse (fun hh => by injection hh with _ hh2; exact h2 hh2)

end

instance : DecidableEq Value := Value.decEq

/-- Python truthiness (`if not name:` and `if resource_metadata:` in the
source): None, False, 0, the empty string, the empty dict and the empty list
are falsy; everything else is truthy. -/
def truthy : Value → Bool
  | Value.none => false
  | Value.bool b => b
  | Value.int n => n != 0
  | Value.str s => s != ""
  | Value.dict es => !es.isEmpty
  | Value.list xs => !xs.isEmpty

/-- Python `d.get(key, default)` on an insertion-ordered dict. -/
def dictGetD : List (String × Value) → String → Value → Value
  | [], _, d => d
  | (k, v) :: rest, key, d => if k = key then v else dictGetD rest key d

/-- Python `d.get(key)` (default None). -/
def dictGet (es : List (String × Value)) (key : String) : Value :=
  dictGetD es key Value.none

/-- Python `d[key] = v`: overwrite the first occurrence in place, append the
pair when the key is absent. -/
def dictSet : List (String × Value) → String → Value → List (String × Value)
  | [], key, v => [(key, v)]
  | (k, w) :: rest, key, v =>
    if k = key then (k, v) :: rest else (k, w) :: dictSet rest key v

/-- One raw template resource, projected onto the only keys the provider ever
reads: `resource.get("Type")` (None when absent), the "Properties" entry
(`Option.none` when the key is absent, so that the in-place metadata merge on
a present dict can be told apart from a merge into the fresh `{}` default),
and `resource.get("Metadata", None)`. -/
structure Resource where
  type : Value
  properties : Option (List (String × Value))
  metadata : Value
deriving DecidableEq

/-- A template dictionary, projected onto its "Resources" entry
(`Option.none` when the key is absent, read as `{}` by the constructor). -/
structure Template where
  resources : Option (List (String × Resource))
deriving DecidableEq

/-- Exceptions the embedded code can raise. -/
inductive PyError where
  | valueError (msg : String)
  | attributeError (msg : String)
deriving DecidableEq

/-- Modelled from the spec: the `SERVERLESS_APPLICATION` class constant is
inherited from `SamBaseProvider`, which is not among the shown sources; it is
the single higher-level declarative type tag the extraction compares against.
Its concrete value does not affect any claim: the source compares every
resource type against this one constant only. -/
def SERVERLESS_APPLICATION : String := "AWS::Serverless::Application"

/-- Modelled from the spec: the `ZIP` package-type constant is imported from
`samcli.lib.utils.packagetype`, which is not among the shown sources. It is
used by the source only as the `.get` default for the NotificationARNs field,
so its concrete value is irrelevant to every claim. -/
def ZIP : String := "Zip"

/-- The `ServerlessApplication` configuration record. Its class definition is
not among the shown sources (the provider's import of the record types is
commented out); the field set is taken from the keyword arguments of the
constructor call in `_build_serverless_application_configuration`. -/
structure ServerlessApplication where
  name : String
  location : Value
  notification_arns : Value
  parameters : Value
  tags : Value
  timeout : Value
deriving DecidableEq

/-- Embedding of `_build_serverless_application_configuration`. The source
line `location=location` is missing its trailing comma before
`notification_arns=...`; the evident keyword-argument reading is embedded.
Each optional field defaults via `resource_properties.get`; NotificationARNs
oddly defaults to the ZIP package-type constant, exactly as written. -/
def build_serverless_application_configuration
    (name : String) (location : Value) (resource_properties : List (String × Value)) :
    ServerlessApplication :=
  { name := name
    location := location
    notification_arns := dictGetD resource_properties "NotificationARNs" (Value.str ZIP)
    parameters := dictGet resource_properties "Parameters"
    tags := dictGet resource_properties "Tags"
    timeout := dictGet resource_properties "TimeoutInMinutes" }

/-- Embedding of `_convert_sam_serverless_application_resource`:
`location = resource_properties.get("Location")`, passed through unchanged
(no normalization of remote references or structured pointers occurs). The
warnings flag is accepted and ignored, as in the source. -/
def convert_sam_serverless_application_resource
    (name : String) (resource_properties : List (String × Value))
    (ignore_code_extraction_warnings : Bool) : ServerlessApplication :=
  build_serverless_application_configuration
    name (dictGet resource_properties "Location") resource_properties

/-- The property view a resource's conversion receives:
`resource.get("Properties", {})`, with `resource_properties["Metadata"] =
resource_metadata` applied when the metadata is truthy. -/
def mergedProperties (r : Resource) : List (String × Value) :=
  let props := r.properties.getD []
  if truthy r.metadata then dictSet props "Metadata" r.metadata else props

/-- The post-state of one resource after the extraction loop visited it: when
the resource has a "Properties" entry, `resource_properties` aliases that very
dict, so the truthy-metadata merge writes into it in place; when the key is
absent, the merge lands in the fresh `{}` default and the resource is
untouched. -/
def mergedResource (r : Resource) : Resource :=
  match r.properties with
  | Option.none => r
  | Option.some props =>
    if truthy r.metadata then
      { r with properties := Option.some (dictSet props "Metadata" r.metadata) }
    else r

/-- Embedding of `_extract_serverless_applications`. For every resource the
metadata merge runs first (mutating the resource's Properties dict in place,
captured by the returned post-state); a record is then produced exactly for
resources whose Type equals the single SERVERLESS_APPLICATION tag, keyed by
logical id in declaration order; all other types are silently skipped.
Returns (post-state of the resource mapping, result mapping). -/
def extract_serverless_applications :
    List (String × Resource) → Bool →
      List (String × Resource) × List (String × ServerlessApplication)
  | [], _ => ([], [])
  | (name, r) :: rest, ignore_code_extraction_warnings =>
    let tail := extract_serverless_applications rest ignore_code_extraction_warnings
    if r.type = Value.str SERVERLESS_APPLICATION then
      ((name, mergedResource r) :: tail.fst,
       (name,
        convert_sam_serverless_application_resource name (mergedProperties r)
          ignore_code_extraction_warnings) :: tail.snd)
    else
      ((name, mergedResource r) :: tail.fst, tail.snd)

/-- Modelled from the spec: `SamBaseProvider.get_template` (template
pre-processing: parameter substitution, normalization) is not among the shown
sources. The spec states the core receives a fully resolved template and that
construction performs no further transformation of it, so it is modelled as
the identity on the template, ignoring the parameter overrides. Note it does
not receive the warnings flag, which is visible in the source call site. -/
def get_template (template_dict : Template)
    (parameter_overrides : Option (List (String × Value))) : Template :=
  template_dict

/-- The provider object, with exactly the attributes `__init__` assigns that
the queries can read: the warnings flag, `self.resources` (the resource
mapping as left after the in-place extraction pass), and `self.functions`
(the extracted index). `applications` models the attribute `get_all` reads:
`__init__` never assigns it (it stores the index in `functions`), so
construction leaves it absent (`Option.none`) and reading it raises
AttributeError. -/
structure Provider where
  ignore_code_extraction_warnings : Bool
  resources : List (String × Resource)
  functions : List (String × ServerlessApplication)
  applications : Option (List (String × ServerlessApplication))

/-- Embedding of `__init__`: run `get_template`, read `Resources` with `{}`
default, extract the index into `self.functions`. No assignment to
`applications` occurs anywhere in the class. -/
def mkProvider (template_dict : Template)
    (parameter_overrides : Option (List (String × Value)))
    (ignore_code_extraction_warnings : Bool) : Provider :=
  let t := get_template template_dict parameter_overrides
  let rs := t.resources.getD []
  let out := extract_serverless_applications rs ignore_code_extraction_warnings
  { ignore_code_extraction_warnings := ignore_code_extraction_warnings
    resources := out.fst
    functions := out.snd
    applications := Option.none }

/-- Embedding of `get_all` (a generator, embedded as its materialized yield
sequence): it iterates `self.applications.items()`, an attribute the
constructor never assigns, so on constructor-built providers the first step
of the iteration raises AttributeError. -/
def Provider.get_all (p : Provider) : Except PyError (List ServerlessApplication) :=
  match p.applications with
  | Option.none =>
    Except.error (PyError.attributeError
      "SamServerlessApplicationProvider object has no attribute applications")
  | Option.some apps => Except.ok (apps.map Prod.snd)

/-- The scan inside `get`: per record, `f.name == name` is checked first; on a
miss the code then reads `f.applicationname`, an attribute the record type
does not have, so the scan raises AttributeError at the first non-matching
record and never reaches the rest of the list. -/
def getScan : List ServerlessApplication → Value → Except PyError (Option ServerlessApplication)
  | [], _ => Except.ok Option.none
  | f :: _, name =>
    if Value.str f.name = name then Except.ok (Option.some f)
    else
      Except.error (PyError.attributeError
        "ServerlessApplication object has no attribute applicationname")

/-- Embedding of `get`: the falsy-name guard raises ValueError before
anything else; otherwise the scan over `get_all` runs (propagating whatever
the enumeration raises), and an exhausted scan returns None. -/
def Provider.get (p : Provider) (name : Value) :
    Except PyError (Option ServerlessApplication) :=
  if truthy name then
    match p.get_all with
    | Except.error e => Except.error e
    | Except.ok apps => getScan apps name
  else Except.error (PyError.valueError "Application name is required")

/-- A serverless application resource with the given Location property. -/
def appResource (loc : Value) : Resource :=
  { type := Value.str SERVERLESS_APPLICATION
    properties := Option.some [("Location", loc)]
    metadata := Value.none }

/-- A template with two serverless application resources. -/
def templateTwoApps : Template :=
  { resources := Option.some
      [("AppA", appResource (Value.str "app-a/template.yaml")),
       ("AppB", appResource (Value.str "app-b/template.yaml"))] }

/-- A template with a single serverless application resource. -/
def templateOneApp : Template :=
  { resources := Option.some
      [("OnlyApp", appResource (Value.str "only/template.yaml"))] }

/-- A template with two serverless application resources named AppOne and
AppTwo, for lookup experiments. -/
def templateLookupApps : Template :=
  { resources := Option.some
      [("AppOne", appResource (Value.str "one/template.yaml")),
       ("AppTwo", appResource (Value.str "two/template.yaml"))] }

/-- A template whose resource mapping is empty. -/
def templateEmpty : Template :=
  { resources := Option.some [] }

/-- A function resource, a type tag the application provider does not
recognize (taken from the unit-test template shape). -/
def funcResource : Resource :=
  { type := Value.str "AWS::Serverless::Function"
    properties := Option.some
      [("CodeUri", Value.str "s3://bucket/key"),
       ("Runtime", Value.str "nodejs4.3"),
       ("Handler", Value.str "index.handler")]
    metadata := Value.none }

/-- A template mixing one recognized application resource with one
unrecognized function resource. -/
def templateMixed : Template :=
  { resources := Option.some
      [("SamApp", appResource (Value.str "app/template.yaml")),
       ("SamFunc", funcResource)] }

/-- A template with one serverless application resource. -/
def templateSoleApp : Template :=
  { resources := Option.some
      [("SoleApp", appResource (Value.str "sole/template.yaml"))] }

/-- A resource mapping whose single resource has both a Properties entry and
truthy Metadata, so the extraction's metadata merge hits it. -/
def resourcesWithMetadata : List (String × Resource) :=
  [("SamApp",
    { type := Value.str SERVERLESS_APPLICATION
      properties := Option.some [("Location", Value.str "PyLayer/")]
      metadata := Value.dict [("BuildMethod", Value.str "python3.8")] })]

/-- Two resources expressing the same deployable concept through the
higher-level declarative tag and the lower-level expanded tag, with
equivalent properties. -/
def resourcesBothTags : List (String × Resource) :=
  [("HighLevelForm",
    { type := Value.str "AWS::Serverless::Application"
      properties := Option.some [("Location", Value.str "child/template.yaml")]
      metadata := Value.none }),
   ("ExpandedForm",
    { type := Value.str "AWS::CloudFormation::Stack"
      properties := Option.some [("Location", Value.str "child/template.yaml")]
      metadata := Value.none })]

/-- Writing one key of a dict leaves lookups of every other key unchanged. -/
theorem dictGetD_set_other (es : List (String × Value)) (k key : String) (v d : Value)
    (h : k ≠ key) : dictGetD (dictSet es k v) key d = dictGetD es key d := by
  induction es with
  | nil => simp [dictSet, dictGetD, h]
  | cons hd tl ih =>
    cases hd with
    | mk k' w =>
      by_cases hk : k' = k
      · simp [dictSet, dictGetD, hk, h]
      · by_cases hkey : k' = key
        · subst hkey
          simp [dictSet, dictGetD, hk]
        · simp [dictSet, dictGetD, hk, hkey, ih]

/-- The lookup scan can only succeed, return None, or raise AttributeError;
it never raises ValueError. -/
theorem getScan_never_value_error (apps : List ServerlessApplication) (name : Value)
    (m : String) : getScan apps name ≠ Except.error (PyError.valueError m) := by
  cases apps with
  | nil => simp [getScan]
  | cons f fs =>
    simp only [getScan]
    split
    · intro h
      exact Except.noConfusion h
    · intro h
      injection h with h'
      exact PyError.noConfusion h'

/-- A non-empty string is truthy. -/
theorem truthy_str_of_ne (s : String) (h : s ≠ "") : truthy (Value.str s) = true := by
  simp [truthy, h]

/-- The conversion routine never reads the warnings flag. -/
theorem convert_ignores_flag (n : String) (props : List (String × Value)) (w₁ w₂ : Bool) :
    convert_sam_serverless_application_resource n props w₁ =
      convert_sam_serverless_application_resource n props w₂ := rfl

/-- The extraction pass is independent of the warnings flag: the flag is
threaded into the conversion but never read. -/
theorem extract_ignores_flag (rs : List (String × Resource)) (w₁ w₂ : Bool) :
    extract_serverless_applications rs w₁ = extract_serverless_applications rs w₂ := by
  induction rs with
  | nil => rfl
  | cons hd tl ih =>
    cases hd with
    | mk n r =>
      simp only [extract_serverless_applications, ih]
      rw [convert_ignores_flag n (mergedProperties r) w₁ w₂]

/-- Claim C1, counterexample: the constructed record's location is not always
a defined local-path-or-sentinel value. With no Location property the record's
location is None (null), and a remote s3 reference string is passed through
verbatim instead of being normalized to a "no local content" sentinel. -/
theorem c1_counterexample :
    (convert_sam_serverless_application_resource "SamApp" [] false).location = Value.none ∧
    (convert_sam_serverless_application_resource "RemoteApp"
        [("Location", Value.str "s3://dummy-bucket/remote-app.yaml")] false).location =
      Value.str "s3://dummy-bucket/remote-app.yaml" :=
  ⟨rfl, rfl⟩

/-- Claim C1 (amended): the location field of every constructed record equals
the raw value of the resource's Location property — the same string for a
bare local path, the remote-reference string or structured bucket/key dict
unchanged for remote sources, and None when the property is absent. No
sentinel normalization is performed, and the metadata merge does not disturb
the Location key. -/
theorem c1_location_is_raw_property_value (n : String) (r : Resource) (w : Bool) :
    (convert_sam_serverless_application_resource n (mergedProperties r) w).location =
      dictGet (r.properties.getD []) "Location" := by
  unfold convert_sam_serverless_application_resource
    build_serverless_application_configuration mergedProperties
  by_cases h : truthy r.metadata
  · simp only [h, if_true, dictGet]
    exact dictGetD_set_other _ _ _ _ _ (by decide)
  · simp [h]

/-- Claim C2 (code bug): construction does build the per-identity record
index (here two records), but `get_all` enumerates `self.applications`, an
attribute the constructor never assigns (it stores the index in
`self.functions`), so `get_all` raises AttributeError instead of yielding the
records built at construction. -/
theorem c2_index_built_but_get_all_raises :
    (mkProvider templateTwoApps Option.none false).functions.length = 2 ∧
    (mkProvider templateTwoApps Option.none false).get_all =
      Except.error (PyError.attributeError
        "SamServerlessApplicationProvider object has no attribute applications") :=
  ⟨rfl, rfl⟩

/-- Claim C3 (code bug): `get` on a constructed provider with a non-empty
name that matches nothing does not return None — the scan inside `get`
iterates `get_all`, which raises AttributeError on its never-assigned
`applications` attribute. -/
theorem c3_get_for_absent_name_raises :
    (mkProvider templateOneApp Option.none false).get (Value.str "does-not-exist") =
      Except.error (PyError.attributeError
        "SamServerlessApplicationProvider object has no attribute applications") := rfl

/-- Claim C4, counterexample: `get` queried with the exact identity of a
declared record does not return that record (let alone perform a
displayName-first lookup) — it raises AttributeError. -/
theorem c4_counterexample :
    (mkProvider templateLookupApps Option.none false).get (Value.str "AppOne") =
      Except.error (PyError.attributeError
        "SamServerlessApplicationProvider object has no attribute applications") := rfl

/-- Claim C4 (amended): for every constructed provider and every non-empty
name, `get` raises AttributeError — enumeration reads the never-assigned
`applications` attribute before any comparison runs; moreover the per-record
scan compares the identity field first and would then read a nonexistent
`applicationname` attribute, so no displayName-first lookup exists. -/
theorem c4_get_raises_attribute_error (td : Template)
    (po : Option (List (String × Value))) (w : Bool) (s : String) (hs : s ≠ "") :
    (mkProvider td po w).get (Value.str s) =
      Except.error (PyError.attributeError
        "SamServerlessApplicationProvider object has no attribute applications") := by
  unfold Provider.get
  rw [if_pos (truthy_str_of_ne s hs)]
  rfl

/-- Claim C4, witness: the amended statement evaluated at a concrete
provider and name. -/
theorem c4_witness :
    (mkProvider templateEmpty Option.none false).get (Value.str "AppOne") =
      Except.error (PyError.attributeError
        "SamServerlessApplicationProvider object has no attribute applications") :=
  c4_get_raises_attribute_error templateEmpty Option.none false "AppOne" (by decide)

/-- Claim C5, counterexample: extraction does mutate the input resource
mapping — for a resource with a Properties entry and truthy Metadata, the
post-construction state of the mapping differs from the input (the metadata
was written into the resource's own Properties dict). -/
theorem c5_counterexample :
    (extract_serverless_applications resourcesWithMetadata false).fst ≠
      resourcesWithMetadata := by decide

/-- Claim C5 (amended): the metadata merge is an in-place write, not an
augmented copy. After extraction the resource mapping equals the input with
each resource's Properties dict updated in place (Metadata written under the
"Metadata" key when the resource has a Properties entry and truthy Metadata);
resources with absent or falsy Metadata are left unchanged. -/
theorem c5_extraction_state_is_in_place_merge (rs : List (String × Resource)) (w : Bool) :
    (extract_serverless_applications rs w).fst =
      rs.map (fun nr => (nr.fst, mergedResource nr.snd)) ∧
    ∀ r : Resource, truthy r.metadata = false → mergedResource r = r := by
  constructor
  · induction rs with
    | nil => rfl
    | cons hd tl ih =>
      cases hd with
      | mk n r =>
        simp only [extract_serverless_applications, List.map_cons, ih]
        split <;> rfl
  · intro r h
    cases hp : r.properties with
    | none => simp [mergedResource, hp]
    | some props => simp [mergedResource, hp, h]

/-- Claim C5, witness: a resource with falsy metadata is untouched by the
merge step. -/
theorem c5_witness :
    mergedResource
        { type := Value.str "AWS::Serverless::Application",
          properties := Option.some [("Location", Value.str "PyLayer/")],
          metadata := Value.none } =
      { type := Value.str "AWS::Serverless::Application",
        properties := Option.some [("Location", Value.str "PyLayer/")],
        metadata := Value.none } :=
  (c5_extraction_state_is_in_place_merge [] false).2 _ (by decide)

/-- Claim C6: `get` raises ValueError exactly for an empty or absent name —
the empty string and None hit the falsy-name guard, and for every non-empty
string name the result (whether a record, None, or an AttributeError from the
broken enumeration) is never that ValueError. -/
theorem c6_value_error_exactly_for_falsy_name (p : Provider) :
    p.get (Value.str "") =
      Except.error (PyError.valueError "Application name is required") ∧
    p.get Value.none =
      Except.error (PyError.valueError "Application name is required") ∧
    ∀ s : String, s ≠ "" →
      p.get (Value.str s) ≠
        Except.error (PyError.valueError "Application name is required") := by
  refine ⟨rfl, rfl, ?_⟩
  intro s hs
  unfold Provider.get
  rw [if_pos (truthy_str_of_ne s hs)]
  cases hA : p.applications with
  | none =>
    simp only [Provider.get_all, hA]
    intro h
    injection h with h'
    exact PyError.noConfusion h'
  | some apps =>
    simp only [Provider.get_all, hA]
    exact getScan_never_value_error (apps.map Prod.snd) (Value.str s)
      "Application name is required"

/-- Claim C6, witness: the non-empty-name conjunct evaluated at a concrete
provider and name. -/
theorem c6_witness :
    (mkProvider templateEmpty Option.none false).get (Value.str "missing") ≠
      Except.error (PyError.valueError "Application name is required") :=
  (c6_value_error_exactly_for_falsy_name
      (mkProvider templateEmpty Option.none false)).2.2 "missing" (by decide)

/-- Claim C7 (code bug): the extraction does silently skip the unrecognized
function resource without error — the built index has exactly as many records
as resources carrying the recognized type tag — but `get_all`, through which
the claim measures this, raises AttributeError on its never-assigned
`applications` attribute instead of yielding those records. -/
theorem c7_recognized_count_but_get_all_raises :
    (mkProvider templateMixed Option.none false).functions.length =
      ((templateMixed.resources.getD []).filter
        (fun nr => nr.snd.type = Value.str SERVERLESS_APPLICATION)).length ∧
    (mkProvider templateMixed Option.none false).get_all =
      Except.error (PyError.attributeError
        "SamServerlessApplicationProvider object has no attribute applications") :=
  ⟨rfl, rfl⟩

/-- Claim C8, counterexample: of two resources describing the same deployable
concept with equivalent properties — one with the higher-level declarative
tag, one with the lower-level expanded tag — only the higher-level one yields
a record; the expanded form yields none, so no pair of structurally equal
records exists. -/
theorem c8_counterexample :
    (extract_serverless_applications resourcesBothTags false).snd.map Prod.fst =
      ["HighLevelForm"] := rfl

/-- Claim C8 (amended): the provider routes exactly one type tag to the
conversion logic — the extracted records are precisely the resources whose
Type equals the single SERVERLESS_APPLICATION constant, converted in
declaration order; a resource with the lower-level expanded tag (or any other
tag) produces no record regardless of its properties. -/
theorem c8_only_single_tag_recognized (rs : List (String × Resource)) (w : Bool) :
    (extract_serverless_applications rs w).snd =
      (rs.filter (fun nr => nr.snd.type = Value.str SERVERLESS_APPLICATION)).map
        (fun nr => (nr.fst,
          convert_sam_serverless_application_resource nr.fst (mergedProperties nr.snd) w)) := by
  induction rs with
  | nil => rfl
  | cons hd tl ih =>
    cases hd with
    | mk n r =>
      by_cases h : r.type = Value.str SERVERLESS_APPLICATION
      · simp [extract_serverless_applications, List.filter_cons, h, ih]
      · simp [extract_serverless_applications, List.filter_cons, h, ih]

/-- Claim C9 (code bug): `get_all` cannot be called twice to compare its
yielded sequences — every call on a constructed provider deterministically
raises AttributeError (the `applications` attribute is never assigned), so no
record sequence is ever yielded. -/
theorem c9_get_all_deterministically_raises :
    (mkProvider templateSoleApp Option.none false).get_all =
      Except.error (PyError.attributeError
        "SamServerlessApplicationProvider object has no attribute applications") := rfl

/-- Claim C10: the ignore_code_extraction_warnings flag has no effect on the
extracted identity-to-record index — constructing the provider with the flag
true and false yields equal `functions` indexes for every template, because
the flag is threaded into extraction and conversion but never read there. -/
theorem c10_flag_has_no_effect_on_index (td : Template)
    (po : Option (List (String × Value))) :
    (mkProvider td po true).functions = (mkProvider td po false).functions := by
  show (extract_serverless_applications ((get_template td po).resources.getD []) true).snd =
    (extract_serverless_applications ((get_template td po).resources.getD []) false).snd
  rw [extract_ignores_flag ((get_template td po).resources.getD []) true false]

end Samcli
